import Mathlib

/-!
Verification development for the BatchIMG batch image-processing tool
(`main.py`).  The orchestration layer of the program (validators, transform
functions, the per-image pipeline executor `process`, and the batch runner
`start_processing`) is shallowly embedded below.  Calls into the imaging
library (Pillow) are modelled by an explicit environment of oracles
(`Env`, `BatchEnv`): each library call is a function that either returns a
value or fails with an error message, mirroring a Python exception.  The
log listbox and the global error counter are modelled as explicit outputs
(a list of appended lines and a count of increments), which is faithful
because the program only ever appends to them and reads them at the very
end of a batch.
-/

set_option maxRecDepth 4096
set_option autoImplicit false

/-- An in-memory decoded image: the attributes of a Pillow image that the
orchestration layer actually reads. -/
structure Image where
  width : Nat
  height : Nat
  mode : String
  format : String
  filename : String
deriving Repr, DecidableEq

/-- Result of one fallible, logging computation: the outcome (`Except`
models return vs. raised exception), the log lines appended so far, and
the number of times the global error counter was incremented. -/
structure Out (α : Type) where
  res : Except String α
  lines : List String
  errs : Nat
deriving Repr

/-! ## String helpers mirroring the Python string operations used -/

/-- Characters of a digit-only, nonempty string (Python `str.isnumeric` on
the ASCII inputs the program handles, and the regex fragment `\d+`). -/
def digits1 (cs : List Char) : Bool :=
  !cs.isEmpty && cs.all Char.isDigit

/-- Parse a digit string as a number (Python `int` on a digit string). -/
def natOfDigits (cs : List Char) : Nat :=
  cs.foldl (fun a c => a * 10 + (c.toNat - '0'.toNat)) 0

/-- Python `s.split(sep)[0]` for a one-character separator: the prefix up
to the first occurrence of `c` (the whole list when `c` is absent). -/
def beforeFirst (c : Char) : List Char → List Char
  | [] => []
  | d :: rest => if d = c then [] else d :: beforeFirst c rest

/-- Split at the first occurrence of `c`: `some (before, after)` when `c`
occurs, `none` otherwise. -/
def splitFirst (c : Char) : List Char → Option (List Char × List Char)
  | [] => none
  | d :: rest =>
    if d = c then some ([], rest)
    else
      match splitFirst c rest with
      | some (l, r) => some (d :: l, r)
      | none => none

/-- Python `s.split(sep)` for a one-character separator: all fields, empty
fields included. -/
def splitAll (c : Char) : List Char → List (List Char)
  | [] => [[]]
  | d :: rest =>
    let r := splitAll c rest
    if d = c then [] :: r
    else
      match r with
      | [] => [[d]]
      | h :: t => (d :: h) :: t

/-- Python `str.strip`: drop whitespace from both ends. -/
def trimChars (cs : List Char) : List Char :=
  ((cs.dropWhile Char.isWhitespace).reverse.dropWhile Char.isWhitespace).reverse

/-- The regex fragment `\d+%?`: digits with an optional trailing percent. -/
def sizeTok (cs : List Char) : Bool :=
  digits1 cs ||
    (match cs.getLast? with
     | some '%' => digits1 cs.dropLast
     | _ => false)

/-- `RESIZE_REGEX = ^(?:\d+%?x\d+%?|\d+%|\d+x\d+)$`.  With an `x` present
the string must be two `\d+%?` tokens around the first `x` (the second
token contains no further `x`); without an `x` it must be `\d+%`.
The alternative `\d+x\d+` is subsumed by `\d+%?x\d+%?`. -/
def matchesResizeChars (cs : List Char) : Bool :=
  match splitFirst 'x' cs with
  | some (a, b) => sizeTok a && sizeTok b
  | none =>
    match cs.getLast? with
    | some '%' => digits1 cs.dropLast
    | _ => false

/-- `CROP_REGEX = ^(?:\d+%?)(?:,\s*\d+%?){3}$`: exactly four comma-separated
`\d+%?` fields, fields two to four may carry leading whitespace. -/
def matchesCrop (s : String) : Bool :=
  match splitAll ',' s.data with
  | [a, b, c, d] =>
    sizeTok a && sizeTok (b.dropWhile Char.isWhitespace) &&
      sizeTok (c.dropWhile Char.isWhitespace) && sizeTok (d.dropWhile Char.isWhitespace)
  | _ => false

/-- `format_size_1d`: a percentage field resolves to `pct * size / 100`
(the Python code computes `int(float(pct) / 100.0 * size)`; the exact
rational floor is used here), a plain field parses as an integer. -/
def format_size_1d (dim : List Char) (size : Nat) : Nat :=
  if dim.contains '%' then natOfDigits (beforeFirst '%' dim) * size / 100
  else natOfDigits dim

/-- `os.path.basename` on the forward-slash-normalised paths the program
builds: the component after the last `/`. -/
def basename (p : String) : String :=
  String.mk ((splitAll '/' p.data).getLastD p.data)

/-- Index of the last `.` in a character list, if any. -/
def lastDotIndex (cs : List Char) : Option Nat :=
  (List.range cs.length).foldl
    (fun acc i => if cs.getD i ' ' = '.' then some i else acc) none

/-- `os.path.splitext`: split off the extension starting at the last dot of
the final path component, except when every character of that component
before the dot is itself a dot (so `.bashrc` has no extension). -/
def splitext (p : String) : String × String :=
  let base := (basename p).data
  let stemLen :=
    match lastDotIndex base with
    | none => base.length
    | some i => if (base.take i).all (fun c => c = '.') then base.length else i
  let keep := p.length - (base.length - stemLen)
  (String.mk (p.data.take keep), String.mk (p.data.drop keep))

/-- Normalisation applied to directory entries before the overwrite
collision check: strip the extension from the base name, lowercase,
trim whitespace. -/
def normalizeName (f : String) : String :=
  String.mk (trimChars (((splitext (basename f)).1).data.map Char.toLower))

/-- Sanity checks of the regex and path translations on the patterns the
UI documents. -/
theorem sanity_string_helpers :
    matchesResizeChars "100%".data = true ∧
    matchesResizeChars "50".data = false ∧
    matchesResizeChars "100x150".data = true ∧
    matchesResizeChars "50%x100".data = true ∧
    matchesResizeChars "1x2x3".data = false ∧
    matchesCrop "0%,0%,0%,0%" = true ∧
    matchesCrop "10, 20,30%, 40" = true ∧
    matchesCrop "10,20,30" = false ∧
    format_size_1d "50%".data 200 = 100 ∧
    splitext "dir/a.tar.gz" = ("dir/a.tar", ".gz") ∧
    splitext ".bashrc" = (".bashrc", "") ∧
    normalizeName "in/Photo One.PNG" = "photo one" := by
  repeat' constructor

/-! ## Option store snapshot and library environment -/

/-- The UI constant lists the transforms index into. -/
def RESAMPLING : List String :=
  ["NEAREST", "LANCZOS", "BILINEAR", "BICUBIC", "BOX", "HAMMING"]

def TRANSPOSE : List String :=
  ["FLIP_LEFT_RIGHT", "FLIP_TOP_BOTTOM", "ROTATE_90", "ROTATE_180", "ROTATE_270"]

def RESIZING : List String :=
  ["Contain", "Cover", "Fit", "Pad"]

/-- Snapshot of every toggle and entry consulted by one pipeline run,
named after the Tk variables of the source. -/
structure Config where
  transform_resize : Bool
  transform_resize_entry : String
  transform_resize_resample : String
  transform_resize_type : Nat
  transform_transpose : Bool
  transform_transpose_mode : String
  transform_crop : Bool
  transform_crop_entry : String
  transform_scale : Bool
  transform_scale_entry : String
  transform_scale_resample : String
  transform_expand : Bool
  transform_expand_entry : String
  fill_color : String
  transform_flip : Bool
  transform_mirror : Bool
  transform_equalize : Bool
  transform_grayscale : Bool
  transform_invert : Bool
  transform_posterize : Bool
  transform_posterize_entry : String
  transform_solarize : Bool
  transform_solarize_entry : String
  transform_blur : Bool
  transform_contour : Bool
  transform_detail : Bool
  transform_edge_enhance : Bool
  transform_edge_enhance_more : Bool
  transform_emboss : Bool
  transform_find_edges : Bool
  transform_sharpen : Bool
  transform_smooth : Bool
  transform_smooth_more : Bool
  transform_color : Bool
  transform_color_entry : String
  transform_contrast : Bool
  transform_contrast_entry : String
  transform_brightness : Bool
  transform_brightness_entry : String
  transform_sharpness : Bool
  transform_sharpness_entry : String
  advanced_convert_filetype : Bool
  advanced_convert_filetype_option : String
  advanced_convert_modes : Bool
  advanced_convert_modes_option : String
  advanced_stats : Bool
  advanced_extrema : Bool
  advanced_count : Bool
  advanced_sum : Bool
  advanced_sum2 : Bool
  advanced_mean : Bool
  advanced_median : Bool
  advanced_rms : Bool
  advanced_var : Bool
  advanced_stddev : Bool

/-- Oracles for every imaging-library call the pipeline delegates to.
Each call either returns a new image (or a value) or fails with the
message of the raised exception.  `isFloat`, `floatPos` and `floatNonneg`
model Python `float()` parsing and the sign tests on the parsed value. -/
structure Env where
  contain : Nat × Nat → Nat → Image → Except String Image
  cover : Nat × Nat → Nat → Image → Except String Image
  fit : Nat × Nat → Nat → Image → Except String Image
  pad : Nat × Nat → Nat → Image → Except String Image
  transposeOp : Nat → Image → Except String Image
  cropOp : Int → Int → Int → Int → Image → Except String Image
  scaleOp : String → Nat → Image → Except String Image
  expandOp : Nat → String → Image → Except String Image
  flipOp : Image → Except String Image
  mirrorOp : Image → Except String Image
  equalizeOp : Image → Except String Image
  grayscaleOp : Image → Except String Image
  invertOp : Image → Except String Image
  posterizeOp : Nat → Image → Except String Image
  solarizeOp : Nat → Image → Except String Image
  filterOp : String → Image → Except String Image
  enhanceOp : String → String → Image → Except String Image
  convertOp : String → Image → Except String Image
  isFloat : String → Bool
  floatPos : String → Bool
  floatNonneg : String → Bool
  getextrema : Image → Except String String
  statCount : Image → Except String String
  statSum : Image → Except String String
  statSum2 : Image → Except String String
  statMean : Image → Except String String
  statMedian : Image → Except String String
  statRms : Image → Except String String
  statVar : Image → Except String String
  statStddev : Image → Except String String

/-! ## Transform functions (`func_transform_*`, `func_advanced_*`) -/

/-- The `SIZE` part the resize validator is applied to: `greater_than[0]`
when the entry splits into two on `>`, else `less_than[0]`. -/
def newSizePart (input : List Char) : List Char :=
  let greater_than := splitAll '>' input
  let less_than := splitAll '<' input
  if greater_than.length == 2 then greater_than.headI else less_than.headI

/-- The target size resolved from a validated `SIZE` string: two fields
around `x` resolve against width and height, a single percentage field
resolves against both. -/
def resolvedSize (new_size : List Char) (img : Image) : Nat × Nat :=
  let size_input := splitAll 'x' new_size
  if size_input.length == 2 then
    (format_size_1d size_input.headI img.width,
     format_size_1d (size_input.getD 1 []) img.height)
  else
    (format_size_1d size_input.headI img.width,
     format_size_1d size_input.headI img.height)

/-- The final resize call, dispatched on the fitting-strategy radio value
(0 contain, 1 cover, 2 fit, 3 pad). -/
def doFit (env : Env) (cfg : Config) (new_size : Nat × Nat) (img : Image) : Out Image :=
  let resize_method := RESAMPLING.indexOf cfg.transform_resize_resample
  let r : Except String Image :=
    match cfg.transform_resize_type with
    | 0 => env.contain new_size resize_method img
    | 1 => env.cover new_size resize_method img
    | 2 => env.fit new_size resize_method img
    | 3 => env.pad new_size resize_method img
    | _ => .ok img
  match r with
  | .ok img2 =>
    ⟨.ok img2,
     ["[TRANSFORM] Resized image using " ++ cfg.transform_resize_resample ++ " (" ++
        RESIZING.getD cfg.transform_resize_type "" ++ ", " ++ toString img2.width ++ "x" ++
        toString img2.height ++ ")."], 0⟩
  | .error e => ⟨.error e, [], 0⟩

def func_transform_resize (env : Env) (cfg : Config) (img : Image) : Out Image :=
  let input := cfg.transform_resize_entry.data
  let greater_than := splitAll '>' input
  let less_than := splitAll '<' input
  let new_size0 := newSizePart input
  if matchesResizeChars new_size0 then
    let new_size := resolvedSize new_size0 img
    if new_size.1 == 0 || new_size.2 == 0 then
      ⟨.ok img, ["[WARN] Invalid resize parameter(s). No resizing performed."], 0⟩
    else if greater_than.length == 2 then
      let suffix := greater_than.getD 1 []
      if matchesResizeChars suffix then
        let resize_input := splitAll 'x' suffix
        if resize_input.length != 2 then
          ⟨.ok img, ["[WARN] Invalid resize parameter(s). No resizing performed."], 0⟩
        else if digits1 resize_input.headI && digits1 (resize_input.getD 1 []) then
          let new_width := natOfDigits resize_input.headI
          let new_height := natOfDigits resize_input.headI
          if img.width < new_width || img.height < new_height then
            ⟨.ok img,
             ["[INFO] Image dimension(s) less than " ++ toString new_width ++ "x" ++
                toString new_height ++ ". Skipping."], 0⟩
          else doFit env cfg new_size img
        else ⟨.ok img, ["[WARN] Invalid resize parameter(s). No resizing performed."], 0⟩
      else ⟨.ok img, ["[WARN] Invalid resize parameter(s). No resizing performed."], 0⟩
    else if less_than.length == 2 then
      let suffix := less_than.getD 1 []
      if matchesResizeChars suffix then
        let resize_input := splitAll 'x' suffix
        if resize_input.length != 2 then
          ⟨.ok img, ["[WARN] Invalid resize parameter(s). No resizing performed."], 0⟩
        else if digits1 resize_input.headI && digits1 (resize_input.getD 1 []) then
          let new_width := natOfDigits resize_input.headI
          let new_height := natOfDigits resize_input.headI
          if img.width > new_width || img.height > new_height then
            ⟨.ok img,
             ["[INFO] Image dimension(s) greater than " ++ toString new_width ++ "x" ++
                toString new_height ++ ". Skipping."], 0⟩
          else doFit env cfg new_size img
        else ⟨.ok img, ["[WARN] Invalid resize parameter(s). No resizing performed."], 0⟩
      else ⟨.ok img, ["[WARN] Invalid resize parameter(s). No resizing performed."], 0⟩
    else doFit env cfg new_size img
  else ⟨.ok img, ["[WARN] Incorrect resize syntax. No resizing performed."], 0⟩

def func_transform_transpose (env : Env) (cfg : Config) (img : Image) : Out Image :=
  match env.transposeOp (TRANSPOSE.indexOf cfg.transform_transpose_mode) img with
  | .ok img2 =>
    ⟨.ok img2, ["[TRANSFORM] Transposed image using " ++ cfg.transform_transpose_mode ++ "."], 0⟩
  | .error e => ⟨.error e, [], 0⟩

/-- `LEFT`/`UPPER` percentage fields resolve from the near edge. -/
def resolveNearEdge (f : List Char) (size : Nat) : Int :=
  if f.contains '%' then (format_size_1d f size : Int) else (natOfDigits f : Int)

/-- `RIGHT`/`LOWER` percentage fields resolve as insets from the far edge:
`size - format_size_1d f size`. -/
def resolveFarEdge (f : List Char) (size : Nat) : Int :=
  if f.contains '%' then (size : Int) - (format_size_1d f size : Int) else (natOfDigits f : Int)

def func_transform_crop (env : Env) (cfg : Config) (img : Image) : Out Image :=
  let coordinates := cfg.transform_crop_entry
  if matchesCrop coordinates then
    match (splitAll ',' coordinates.data).map trimChars with
    | [l, u, r, d] =>
      let left := resolveNearEdge l img.width
      let upper := resolveNearEdge u img.height
      let right := resolveFarEdge r img.width
      let lower := resolveFarEdge d img.height
      if left < right ∧ upper < lower ∧ right ≠ 0 ∧ lower ≠ 0 then
        match env.cropOp left upper right lower img with
        | .ok img2 =>
          ⟨.ok img2,
           ["[TRANSFORM] Cropped image region (" ++ toString left ++ ", " ++ toString upper ++
              ", " ++ toString right ++ ", " ++ toString lower ++ ")."], 0⟩
        | .error e => ⟨.error e, [], 0⟩
      else ⟨.ok img, ["[WARN] Invalid cropping dimensions. No cropping performed."], 0⟩
    | _ => ⟨.ok img, ["[WARN] Invalid cropping dimensions. No cropping performed."], 0⟩
  else ⟨.ok img, ["[WARN] Incorrect cropping syntax. No cropping performed."], 0⟩

def func_transform_scale (env : Env) (cfg : Config) (img : Image) : Out Image :=
  let factor := cfg.transform_scale_entry
  if env.isFloat factor && env.floatPos factor then
    let scale_method := RESAMPLING.indexOf cfg.transform_scale_resample
    match env.scaleOp factor scale_method img with
    | .ok img2 =>
      ⟨.ok img2,
       ["[TRANSFORM] Scaled image with factor " ++ factor ++ " using " ++
          RESAMPLING.getD scale_method "" ++ "."], 0⟩
    | .error e => ⟨.error e, [], 0⟩
  else ⟨.ok img, ["[WARN] Invalid scaling factor. No scaling performed."], 0⟩

def func_transform_expand (env : Env) (cfg : Config) (img : Image) : Out Image :=
  let border := cfg.transform_expand_entry
  if digits1 border.data then
    match env.expandOp (natOfDigits border.data) cfg.fill_color img with
    | .ok img2 =>
      ⟨.ok img2,
       ["[TRANSFORM] Expanded image by " ++ border ++ " pixels with color " ++
          cfg.fill_color ++ "."], 0⟩
    | .error e => ⟨.error e, [], 0⟩
  else ⟨.ok img, ["[WARN] Invalid border width. No expanding performed."], 0⟩

/-- Shared shape of the parameterless `ImageOps` transforms. -/
def simpleOp (call : Except String Image) (msg : String) : Out Image :=
  match call with
  | .ok img2 => ⟨.ok img2, [msg], 0⟩
  | .error e => ⟨.error e, [], 0⟩

def func_transform_flip (env : Env) (img : Image) : Out Image :=
  simpleOp (env.flipOp img) "[TRANSFORM] Flipped image."

def func_transform_mirror (env : Env) (img : Image) : Out Image :=
  simpleOp (env.mirrorOp img) "[TRANSFORM] Mirrored image."

def func_transform_equalize (env : Env) (img : Image) : Out Image :=
  simpleOp (env.equalizeOp img) "[TRANSFORM] Equalized image histogram."

def func_transform_grayscale (env : Env) (img : Image) : Out Image :=
  simpleOp (env.grayscaleOp img) "[TRANSFORM] Grayscaled image."

def func_transform_invert (env : Env) (img : Image) : Out Image :=
  simpleOp (env.invertOp img) "[TRANSFORM] Inverted image."

def func_transform_posterize (env : Env) (cfg : Config) (img : Image) : Out Image :=
  let bits := cfg.transform_posterize_entry
  if digits1 bits.data && natOfDigits bits.data > 0 && natOfDigits bits.data < 9 then
    simpleOp (env.posterizeOp (natOfDigits bits.data) img)
      ("[TRANSFORM] Posterized image, kept " ++ bits ++ " bit(s).")
  else ⟨.ok img, ["[WARN] Invalid posterize argument. Did not posterize image."], 0⟩

def func_transform_solarize (env : Env) (cfg : Config) (img : Image) : Out Image :=
  let threshold := cfg.transform_solarize_entry
  if digits1 threshold.data then
    simpleOp (env.solarizeOp (natOfDigits threshold.data) img)
      ("[TRANSFORM] Solarized image with threshold " ++ threshold ++ ".")
  else ⟨.ok img, ["[WARN] Invalid solarize argument. Did not solarize image."], 0⟩

def func_transform_blur (env : Env) (img : Image) : Out Image :=
  simpleOp (env.filterOp "BLUR" img) "[TRANSFORM] Applied blur to image."

def func_transform_contour (env : Env) (img : Image) : Out Image :=
  simpleOp (env.filterOp "CONTOUR" img) "[TRANSFORM] Applied contour to image."

def func_transform_detail (env : Env) (img : Image) : Out Image :=
  simpleOp (env.filterOp "DETAIL" img) "[TRANSFORM] Applied detail to image."

def func_transform_edge_enhance (env : Env) (img : Image) : Out Image :=
  simpleOp (env.filterOp "EDGE_ENHANCE" img) "[TRANSFORM] Applied edge enhance to image."

def func_transform_edge_enhance_more (env : Env) (img : Image) : Out Image :=
  simpleOp (env.filterOp "EDGE_ENHANCE_MORE" img) "[TRANSFORM] Applied more edge enhance to image."

def func_transform_emboss (env : Env) (img : Image) : Out Image :=
  simpleOp (env.filterOp "EMBOSS" img) "[TRANSFORM] Applied emboss to image."

def func_transform_find_edges (env : Env) (img : Image) : Out Image :=
  simpleOp (env.filterOp "FIND_EDGES" img) "[TRANSFORM] Applied edgefind to image."

def func_transform_sharpen (env : Env) (img : Image) : Out Image :=
  simpleOp (env.filterOp "SHARPEN" img) "[TRANSFORM] Applied sharpen to image."

def func_transform_smooth (env : Env) (img : Image) : Out Image :=
  simpleOp (env.filterOp "SMOOTH" img) "[TRANSFORM] Applied smoothing to image."

def func_transform_smooth_more (env : Env) (img : Image) : Out Image :=
  simpleOp (env.filterOp "SMOOTH_MORE" img) "[TRANSFORM] Applied more smoothing to image."

/-- Shared shape of the four `ImageEnhance` transforms: validate the factor
entry, then delegate. -/
def enhanceStep (env : Env) (kind : String) (factor : String) (okMsg warnMsg : String)
    (img : Image) : Out Image :=
  if env.isFloat factor && env.floatNonneg factor then
    simpleOp (env.enhanceOp kind factor img) okMsg
  else ⟨.ok img, [warnMsg], 0⟩

def func_transform_color (env : Env) (cfg : Config) (img : Image) : Out Image :=
  enhanceStep env "Color" cfg.transform_color_entry
    ("[TRANSFORM] Enhanced color of image with factor " ++ cfg.transform_color_entry ++ ".")
    "[WARN] Invalid color factor. No enhancing performed." img

def func_transform_contrast (env : Env) (cfg : Config) (img : Image) : Out Image :=
  enhanceStep env "Contrast" cfg.transform_contrast_entry
    ("[TRANSFORM] Enhanced contrast of image with factor " ++ cfg.transform_contrast_entry ++ ".")
    "[WARN] Invalid contrast factor. No enhancing performed." img

def func_transform_brightness (env : Env) (cfg : Config) (img : Image) : Out Image :=
  enhanceStep env "Brightness" cfg.transform_brightness_entry
    ("[TRANSFORM] Enhanced brightness of image with factor " ++ cfg.transform_brightness_entry ++ ".")
    "[WARN] Invalid brightness factor. No enhancing performed." img

def func_transform_sharpness (env : Env) (cfg : Config) (img : Image) : Out Image :=
  enhanceStep env "Sharpness" cfg.transform_sharpness_entry
    ("[TRANSFORM] Enhanced sharpness of image with factor " ++ cfg.transform_sharpness_entry ++ ".")
    "[WARN] Invalid sharpness factor. No enhancing performed." img

/-- Filetype conversion changes only the output extension, never pixel
data, and cannot fail. -/
def func_advanced_convert_filetype (cfg : Config) (_img_extension : String) : Out String :=
  let new_type := cfg.advanced_convert_filetype_option
  ⟨.ok ("." ++ String.mk (new_type.data.map Char.toLower)),
   ["[ADVANCED] Converted image to filetype " ++ new_type ++ "."], 0⟩

def func_advanced_convert_mode (env : Env) (cfg : Config) (img : Image) : Out Image :=
  match env.convertOp cfg.advanced_convert_modes_option img with
  | .ok img2 =>
    ⟨.ok img2,
     ["[ADVANCED] Converted image to mode " ++ cfg.advanced_convert_modes_option ++ "."], 0⟩
  | .error e => ⟨.error e, [], 0⟩

/-! ## The isolation wrapper and the pipeline executor -/

/-- `check`: run `f` only when the checkbutton is set; catch any failure,
append one `[ERROR]` line after whatever `f` already logged, bump the
error counter, and keep the pre-operation value. -/
def check {α : Type} (val : Bool) (f : α → Out α) (x : α) : α × List String × Nat :=
  if val then
    match f x with
    | ⟨.ok y, ls, k⟩ => (y, ls, k)
    | ⟨.error e, ls, k⟩ => (x, ls ++ ["[ERROR] " ++ e], k + 1)
  else (x, [], 0)

/-- `check2`: the two-argument variant of `check`. -/
def check2 {α β : Type} (val : Bool) (f : α → β → Out β) (arg1 : α) (arg2 : β) :
    β × List String × Nat :=
  if val then
    match f arg1 arg2 with
    | ⟨.ok y, ls, k⟩ => (y, ls, k)
    | ⟨.error e, ls, k⟩ => (arg2, ls ++ ["[ERROR] " ++ e], k + 1)
  else (arg2, [], 0)

/-- Sequential execution of a list of guarded operations, accumulating the
log lines and error-counter increments in order. -/
def runChecks {α : Type} : List (String × Bool × (α → Out α)) → α → α × List String × Nat
  | [], x => (x, [], 0)
  | (_, b, f) :: rest, x =>
    let r := check b f x
    let r2 := runChecks rest r.1
    (r2.1, r.2.1 ++ r2.2.1, r.2.2 + r2.2.2)

/-- The 26 guarded image transforms of the `process` body, in the exact
textual order of the source, tagged with their operation names. -/
def transformChecks (env : Env) (cfg : Config) : List (String × Bool × (Image → Out Image)) :=
  [("resize", cfg.transform_resize, func_transform_resize env cfg),
   ("transpose", cfg.transform_transpose, func_transform_transpose env cfg),
   ("crop", cfg.transform_crop, func_transform_crop env cfg),
   ("scale", cfg.transform_scale, func_transform_scale env cfg),
   ("expand", cfg.transform_expand, func_transform_expand env cfg),
   ("flip", cfg.transform_flip, func_transform_flip env),
   ("mirror", cfg.transform_mirror, func_transform_mirror env),
   ("equalize", cfg.transform_equalize, func_transform_equalize env),
   ("grayscale", cfg.transform_grayscale, func_transform_grayscale env),
   ("invert", cfg.transform_invert, func_transform_invert env),
   ("posterize", cfg.transform_posterize, func_transform_posterize env cfg),
   ("solarize", cfg.transform_solarize, func_transform_solarize env cfg),
   ("blur", cfg.transform_blur, func_transform_blur env),
   ("contour", cfg.transform_contour, func_transform_contour env),
   ("detail", cfg.transform_detail, func_transform_detail env),
   ("edge_enhance", cfg.transform_edge_enhance, func_transform_edge_enhance env),
   ("edge_enhance_more", cfg.transform_edge_enhance_more, func_transform_edge_enhance_more env),
   ("emboss", cfg.transform_emboss, func_transform_emboss env),
   ("find_edges", cfg.transform_find_edges, func_transform_find_edges env),
   ("sharpen", cfg.transform_sharpen, func_transform_sharpen env),
   ("smooth", cfg.transform_smooth, func_transform_smooth env),
   ("smooth_more", cfg.transform_smooth_more, func_transform_smooth_more env),
   ("color", cfg.transform_color, func_transform_color env cfg),
   ("contrast", cfg.transform_contrast, func_transform_contrast env cfg),
   ("brightness", cfg.transform_brightness, func_transform_brightness env cfg),
   ("sharpness", cfg.transform_sharpness, func_transform_sharpness env cfg)]

/-- The fixed consultation order of the guarded image transforms. -/
def transformOrder : List String :=
  ["resize", "transpose", "crop", "scale", "expand",
   "flip", "mirror", "equalize", "grayscale", "invert", "posterize", "solarize",
   "blur", "contour", "detail", "edge_enhance", "edge_enhance_more", "emboss",
   "find_edges", "sharpen", "smooth", "smooth_more",
   "color", "contrast", "brightness", "sharpness"]

/-- One guarded statistics line: when the metric is selected, a failing
computation propagates (the source has no handler around the statistics
block), otherwise `label:value` plus a newline is appended. -/
def addStat (enabled : Bool) (label : String) (comp : Except String String)
    (acc : Except String String) : Except String String :=
  match acc with
  | .error e => .error e
  | .ok sofar =>
    if enabled then
      match comp with
      | .ok v => .ok (sofar ++ label ++ ":" ++ v ++ "\n")
      | .error e => .error e
    else .ok sofar

/-- The statistics block built inside `process` when `advanced_stats` is
set: one guarded line per metric, in source order. -/
def computeStats (env : Env) (cfg : Config) (img : Image) : Except String String :=
  let s0 : Except String String := .ok ""
  let s1 := addStat cfg.advanced_extrema "extrema" (env.getextrema img) s0
  let s2 := addStat cfg.advanced_count "count" (env.statCount img) s1
  let s3 := addStat cfg.advanced_sum "sum" (env.statSum img) s2
  let s4 := addStat cfg.advanced_sum2 "sum2" (env.statSum2 img) s3
  let s5 := addStat cfg.advanced_mean "mean" (env.statMean img) s4
  let s6 := addStat cfg.advanced_median "median" (env.statMedian img) s5
  let s7 := addStat cfg.advanced_rms "rms" (env.statRms img) s6
  let s8 := addStat cfg.advanced_var "var" (env.statVar img) s7
  addStat cfg.advanced_stddev "stddev" (env.statStddev img) s8

/-- The `[FILE] Processing ...` line emitted at the top of `process`. -/
def processHeader (img : Image) : String :=
  "[FILE] Processing " ++ basename img.filename ++ " (" ++ img.format ++ ", " ++
    toString img.width ++ "x" ++ toString img.height ++ ", " ++ img.mode ++ ")..."

/-- `process`: the pipeline executor.  Applies the guarded transforms in
fixed order, then the filetype conversion (extension only), then the mode
conversion, then builds the statistics block on the image as it then
stands.  A failure escaping the statistics block aborts the run (the
transforms themselves are isolated by `check`). -/
def process (env : Env) (cfg : Config) (img0 : Image) :
    Out (Image × String × String × String) :=
  let img_name := (splitext (basename img0.filename)).1
  let img_extension := (splitext img0.filename).2
  let img_name_full := basename img0.filename
  let r1 := runChecks (transformChecks env cfg) img0
  let r2 := check cfg.advanced_convert_filetype (func_advanced_convert_filetype cfg) img_extension
  let r3 := check cfg.advanced_convert_modes (func_advanced_convert_mode env cfg) r1.1
  let stRes := if cfg.advanced_stats then computeStats env cfg r3.1 else .ok ""
  match stRes with
  | .ok img_stats =>
    ⟨.ok (r3.1, img_name, r2.1, img_stats),
     [processHeader img0] ++ r1.2.1 ++ r2.2.1 ++ r3.2.1 ++
       ["[FILE] Successfully processed " ++ img_name_full ++ "."],
     r1.2.2 + r2.2.2 + r3.2.2⟩
  | .error e =>
    ⟨.error e, [processHeader img0] ++ r1.2.1 ++ r2.2.1 ++ r3.2.1,
     r1.2.2 + r2.2.2 + r3.2.2⟩

/-- The image after the 26 guarded transforms, before the advanced stage. -/
def stageImage (env : Env) (cfg : Config) (img : Image) : Image :=
  (runChecks (transformChecks env cfg) img).1

/-- The image after the (guarded) mode conversion — the image every
selected statistics metric is computed on, and the image handed to the
batch runner. -/
def modeImage (env : Env) (cfg : Config) (img : Image) : Image :=
  (check cfg.advanced_convert_modes (func_advanced_convert_mode env cfg)
    (stageImage env cfg img)).1

/-- The output extension after the (guarded) filetype conversion; a
function of the configuration and the original extension only. -/
def extResult (cfg : Config) (ext : String) : String :=
  (check cfg.advanced_convert_filetype (func_advanced_convert_filetype cfg) ext).1

/-! ## Batch runner (`start_processing`) -/

/-- The source/destination directories and the overwrite checkbox. -/
structure BatchCfg where
  inputPath : String
  outputPath : String
  overwrite : Bool

/-- Oracles for the batch runner's interactions with the file system and
the operator: directory encoding/creation outcomes, the directory
listings, decoding, the three save branches, the statistics sidecar
write, and the answer to the overwrite confirmation dialog. -/
structure BatchEnv where
  fsencodeRes : Except String Unit
  mkdirsRes : Except String Unit
  inFiles : List String
  outFiles : List String
  decode : String → Except String Image
  saveSpider : String → Image → Except String Unit
  saveMulti : String → Image → Except String Unit
  saveDefault : String → Image → Except String Unit
  writeStats : String → String → Except String Unit
  confirm : Bool

/-- Observable outcome of one batch run: the appended log lines, the two
counters of the run summary, how many times the overwrite confirmation
dialog was raised, and the files actually written. -/
structure BatchOut where
  lines : List String
  imgs : Nat
  errs : Nat
  prompts : Nat
  saved : List String
  statsSaved : List String
deriving Repr, DecidableEq

/-- The extension-specific save dispatch: a dedicated branch for `.spi`,
one for the multi-frame family, and a default branch. -/
def saveStep (benv : BatchEnv) (img : Image) (ext : String) (outPath : String) :
    Except String Unit :=
  if ext == ".spi" then benv.saveSpider outPath img
  else if ext == ".png" || ext == ".gif" || ext == ".mpo" || ext == ".pdf" ||
      ext == ".tiff" || ext == ".webp" then benv.saveMulti outPath img
  else benv.saveDefault outPath img

/-- One iteration of the batch loop: decode, run the pipeline, save, write
the sidecar, count.  Any failure in the chain appends one `[ERROR]` line,
bumps the error counter, and moves on (the image counter is only bumped
at the very end of a fully successful chain). -/
def processFile (benv : BatchEnv) (penv : Env) (pcfg : Config) (bcfg : BatchCfg)
    (file : String) (acc : BatchOut) : BatchOut :=
  let img_path := bcfg.inputPath ++ "/" ++ file
  match benv.decode img_path with
  | .error e => { acc with lines := acc.lines ++ ["[ERROR] " ++ e], errs := acc.errs + 1 }
  | .ok img =>
    let p := process penv pcfg img
    match p.res with
    | .error e =>
      { acc with lines := acc.lines ++ p.lines ++ ["[ERROR] " ++ e],
                 errs := acc.errs + p.errs + 1 }
    | .ok (img2, img_name, img_extension, img_stats) =>
      let outPath := bcfg.outputPath ++ "/" ++ img_name ++ img_extension
      let spiLines := if img_extension == ".spi" then ["[FILE] Spider!"] else []
      match saveStep benv img2 img_extension outPath with
      | .error e =>
        { acc with lines := acc.lines ++ p.lines ++ spiLines ++ ["[ERROR] " ++ e],
                   errs := acc.errs + p.errs + 1 }
      | .ok _ =>
        let acc2 :=
          { acc with
            lines := acc.lines ++ p.lines ++ spiLines ++
              ["[FILE] Applied extension-specific options.",
               "[FILE] Saved image: " ++ outPath],
            errs := acc.errs + p.errs,
            saved := acc.saved ++ [outPath] }
        if img_stats ≠ "" then
          let statsPath := bcfg.outputPath ++ "/" ++ img_name ++ ".txt"
          match benv.writeStats statsPath img_stats with
          | .error e =>
            { acc2 with lines := acc2.lines ++ ["[ERROR] " ++ e], errs := acc2.errs + 1 }
          | .ok _ =>
            { acc2 with
              lines := acc2.lines ++ ["[FILE] Saved statistics: " ++ statsPath ++ "."],
              statsSaved := acc2.statsSaved ++ [statsPath],
              imgs := acc2.imgs + 1 }
        else { acc2 with imgs := acc2.imgs + 1 }

/-- The batch loop over the input directory listing. -/
def runFiles (benv : BatchEnv) (penv : Env) (pcfg : Config) (bcfg : BatchCfg) :
    List String → BatchOut → BatchOut
  | [], acc => acc
  | f :: rest, acc => runFiles benv penv pcfg bcfg rest (processFile benv penv pcfg bcfg f acc)

/-- Process every listed file, then append the one summary line reporting
the two counters. -/
def finishBatch (benv : BatchEnv) (penv : Env) (pcfg : Config) (bcfg : BatchCfg)
    (acc : BatchOut) : BatchOut :=
  let acc2 := runFiles benv penv pcfg bcfg benv.inFiles acc
  { acc2 with
    lines := acc2.lines ++
      ["[INFO] Finished processing " ++ toString acc2.imgs ++ " images with " ++
         toString acc2.errs ++ " error(s)."] }

/-- `start_processing`: one full batch run.  Encoding or directory-creation
failure aborts with an `[ERROR]`; a name collision with the overwrite
checkbox clear raises the confirmation dialog once, and a declined dialog
aborts with an `[INFO]` line and zero processed images. -/
def start_processing (benv : BatchEnv) (penv : Env) (pcfg : Config) (bcfg : BatchCfg) :
    BatchOut :=
  let acc0 : BatchOut :=
    { lines := [], imgs := 0, errs := 0, prompts := 0, saved := [], statsSaved := [] }
  match benv.fsencodeRes with
  | .error e => { acc0 with lines := ["[ERROR] " ++ e] }
  | .ok _ =>
    let acc1 := { acc0 with lines := ["[INFO] Started processing job."] }
    match benv.mkdirsRes with
    | .error e => { acc1 with lines := acc1.lines ++ ["[ERROR] " ++ e] }
    | .ok _ =>
      let in_files := benv.inFiles.map normalizeName
      let out_files := benv.outFiles.map normalizeName
      let collide := in_files.any (fun n => out_files.contains n)
      if collide && !bcfg.overwrite then
        let acc2 := { acc1 with prompts := 1 }
        if !benv.confirm then
          { acc2 with lines := acc2.lines ++ ["[INFO] Aborted processing job."] }
        else finishBatch benv penv pcfg bcfg acc2
      else finishBatch benv penv pcfg bcfg acc1

/-! ## In-flight job counter (`THREAD_COUNT`) -/

/-- The increment performed by `start_processing_threads` right after
launching a worker. -/
def increment_thread_count (t : Int) : Int := t + 1

/-- The decrement performed at the end (or at every abort path) of
`start_processing`: `THREAD_COUNT = 0 if THREAD_COUNT < 0 else
(THREAD_COUNT - 1)`. -/
def decrement_thread_count (t : Int) : Int := if t < 0 then 0 else t - 1

/-! ## Concrete model instances used by witnesses and counterexamples -/

/-- Model of the imaging library's `crop` contract: the returned image has
size `(right - left, lower - upper)` (clamped at zero). -/
def pilCrop (l u r d : Int) (img : Image) : Image :=
  { img with width := (r - l).toNat, height := (d - u).toNat }

/-- A benign library environment: every call succeeds, the four fitting
strategies return an image of the requested size, and `crop` follows its
documented contract. -/
def defaultEnv : Env where
  contain := fun sz _ i => .ok { i with width := sz.1, height := sz.2 }
  cover := fun sz _ i => .ok { i with width := sz.1, height := sz.2 }
  fit := fun sz _ i => .ok { i with width := sz.1, height := sz.2 }
  pad := fun sz _ i => .ok { i with width := sz.1, height := sz.2 }
  transposeOp := fun _ i => .ok i
  cropOp := fun l u r d i => .ok (pilCrop l u r d i)
  scaleOp := fun _ _ i => .ok i
  expandOp := fun _ _ i => .ok i
  flipOp := fun i => .ok i
  mirrorOp := fun i => .ok i
  equalizeOp := fun i => .ok i
  grayscaleOp := fun i => .ok i
  invertOp := fun i => .ok i
  posterizeOp := fun _ i => .ok i
  solarizeOp := fun _ i => .ok i
  filterOp := fun _ i => .ok i
  enhanceOp := fun _ _ i => .ok i
  convertOp := fun m i => .ok { i with mode := m }
  isFloat := fun _ => false
  floatPos := fun _ => false
  floatNonneg := fun _ => false
  getextrema := fun _ => .ok "(0, 255)"
  statCount := fun _ => .ok "[65536]"
  statSum := fun _ => .ok "[8355840.0]"
  statSum2 := fun _ => .ok "[1385222400.0]"
  statMean := fun _ => .ok "[127.5]"
  statMedian := fun _ => .ok "[127]"
  statRms := fun _ => .ok "[147.2]"
  statVar := fun _ => .ok "[5461.25]"
  statStddev := fun _ => .ok "[73.9]"

/-- The configuration snapshot at program start: every toggle off, every
entry at its UI default. -/
def defaultCfg : Config where
  transform_resize := false
  transform_resize_entry := "100%"
  transform_resize_resample := "BICUBIC"
  transform_resize_type := 0
  transform_transpose := false
  transform_transpose_mode := "FLIP_LEFT_RIGHT"
  transform_crop := false
  transform_crop_entry := "0%,0%,0%,0%"
  transform_scale := false
  transform_scale_entry := "1.0"
  transform_scale_resample := "BICUBIC"
  transform_expand := false
  transform_expand_entry := "0"
  fill_color := "#000000"
  transform_flip := false
  transform_mirror := false
  transform_equalize := false
  transform_grayscale := false
  transform_invert := false
  transform_posterize := false
  transform_posterize_entry := "8"
  transform_solarize := false
  transform_solarize_entry := "256"
  transform_blur := false
  transform_contour := false
  transform_detail := false
  transform_edge_enhance := false
  transform_edge_enhance_more := false
  transform_emboss := false
  transform_find_edges := false
  transform_sharpen := false
  transform_smooth := false
  transform_smooth_more := false
  transform_color := false
  transform_color_entry := "1.0"
  transform_contrast := false
  transform_contrast_entry := "1.0"
  transform_brightness := false
  transform_brightness_entry := "1.0"
  transform_sharpness := false
  transform_sharpness_entry := "1.0"
  advanced_convert_filetype := false
  advanced_convert_filetype_option := "BLP"
  advanced_convert_modes := false
  advanced_convert_modes_option := "1"
  advanced_stats := false
  advanced_extrema := false
  advanced_count := false
  advanced_sum := false
  advanced_sum2 := false
  advanced_mean := false
  advanced_median := false
  advanced_rms := false
  advanced_var := false
  advanced_stddev := false

/-! ## C9 — in-flight job counter -/

/-- C9: the claim says the clamped decrement leaves every reachable
non-negative counter value non-negative.  The counter starts at 0, which
is therefore reachable, and decrementing it yields `-1`: the guard
`0 if THREAD_COUNT < 0 else THREAD_COUNT - 1` only clamps values that are
already negative (third conjunct), so one decrement at 0 — possible
because the worker is started before the launcher increments — drives the
displayed counter negative, against the stated (and clearly intended)
invariant. -/
theorem c9_thread_counter_negative :
    decrement_thread_count 0 = -1 ∧ decrement_thread_count 0 < 0 ∧
    decrement_thread_count (-1) = 0 ∧ increment_thread_count 0 = 1 := by
  refine ⟨rfl, by decide, rfl, rfl⟩

/-! ## C1 — per-operation error isolation -/

/-- C1: for every enabled operation whose underlying transform raises, the
isolation wrapper `check` (and its two-argument variant `check2`) catches
the failure, appends exactly one `[ERROR]` log line, increments the batch
error counter by exactly one, and passes the pre-operation value forward
unchanged — so in a pipeline the remaining guarded operations still run
on that value (third conjunct).  The fourth conjunct shows the failure
shape assumed of the transform is the one the real transforms produce. -/
theorem c1_operation_isolation {α β γ : Type} (f : α → Out α) (x : α) (e : String)
    (g : β → γ → Out γ) (a : β) (y : γ) (e2 : String)
    (rest : List (String × Bool × (α → Out α))) (nm : String)
    (hf : f x = ⟨.error e, [], 0⟩) (hg : g a y = ⟨.error e2, [], 0⟩) :
    check true f x = (x, ["[ERROR] " ++ e], 1) ∧
    check2 true g a y = (y, ["[ERROR] " ++ e2], 1) ∧
    runChecks ((nm, true, f) :: rest) x =
      ((runChecks rest x).1, ["[ERROR] " ++ e] ++ (runChecks rest x).2.1,
        1 + (runChecks rest x).2.2) ∧
    (∀ (env : Env) (img : Image) (e3 : String),
      env.flipOp img = .error e3 → func_transform_flip env img = ⟨.error e3, [], 0⟩) := by
  refine ⟨by simp [check, hf], by simp [check2, hg], ?_, ?_⟩
  · simp [runChecks, check, hf]
  · intro env img e3 h3
    simp [func_transform_flip, simpleOp, h3]

/-- A concrete decoded image used by witnesses. -/
def imgW : Image :=
  { width := 200, height := 100, mode := "RGB", format := "PNG", filename := "in/photo.png" }

/-- Witness for C1 at a concrete failing operation. -/
theorem c1_operation_isolation_witness :
    check true (fun _ : Image => (⟨.error "boom", [], 0⟩ : Out Image)) imgW =
      (imgW, ["[ERROR] boom"], 1) ∧
    check2 true (fun (_ : Nat) (_ : String) => (⟨.error "bam", [], 0⟩ : Out String)) 1 ".png" =
      (".png", ["[ERROR] bam"], 1) := by
  have h := c1_operation_isolation (fun _ : Image => (⟨.error "boom", [], 0⟩ : Out Image))
    imgW "boom" (fun (_ : Nat) (_ : String) => (⟨.error "bam", [], 0⟩ : Out String)) 1 ".png"
    "bam" [] "op" rfl rfl
  exact ⟨h.1, h.2.1⟩

/-! ## C2 — fixed pipeline order -/

/-- C2: the pipeline consults operations in one fixed total order.  The
consultation order of the 26 guarded transforms is the constant list
`transformOrder`, independent of the environment, the configuration and
the image (first conjunct).  Whenever `process` returns, the returned
image is the post-mode-conversion image, the returned extension is the
filetype conversion's output computed from the original extension alone
(so the extension change is in place before — and unaffected by — the
mode conversion's pixel change), and the statistics block was computed on
the post-mode-conversion image (second conjunct).  With both conversions
enabled, the log records the filetype conversion strictly before the mode
conversion (third conjunct). -/
theorem c2_pipeline_fixed_order (env : Env) (cfg : Config) (img : Image) :
    (transformChecks env cfg).map (fun p => p.1) = transformOrder ∧
    (∀ (i : Image) (n x st : String), (process env cfg img).res = .ok (i, n, x, st) →
      i = modeImage env cfg img ∧ x = extResult cfg (splitext img.filename).2 ∧
      (if cfg.advanced_stats then computeStats env cfg (modeImage env cfg img)
       else .ok "") = .ok st) ∧
    (∀ img2 : Image, cfg.advanced_convert_filetype = true →
      cfg.advanced_convert_modes = true → cfg.advanced_stats = false →
      env.convertOp cfg.advanced_convert_modes_option (stageImage env cfg img) = .ok img2 →
      (process env cfg img).lines =
        [processHeader img] ++ (runChecks (transformChecks env cfg) img).2.1 ++
          ["[ADVANCED] Converted image to filetype " ++
             cfg.advanced_convert_filetype_option ++ ".",
           "[ADVANCED] Converted image to mode " ++
             cfg.advanced_convert_modes_option ++ ".",
           "[FILE] Successfully processed " ++ basename img.filename ++ "."]) := by
  have hmode : (check cfg.advanced_convert_modes (func_advanced_convert_mode env cfg)
      (runChecks (transformChecks env cfg) img).1).1 = modeImage env cfg img := rfl
  have hext : (check cfg.advanced_convert_filetype (func_advanced_convert_filetype cfg)
      (splitext img.filename).2).1 = extResult cfg (splitext img.filename).2 := rfl
  refine ⟨rfl, ?_, ?_⟩
  · intro i n x st h
    simp only [process] at h
    split at h
    next s heq =>
      simp only [Except.ok.injEq, Prod.mk.injEq] at h
      obtain ⟨hi, hn, hx, hs⟩ := h
      refine ⟨hi.symm.trans hmode, hx.symm.trans hext, ?_⟩
      rw [← hmode, heq, hs]
    next e heq =>
      simp at h
  · intro img2 hft hmd hstats hcv
    simp only [process, hstats, Bool.false_eq_true, if_false]
    simp only [stageImage] at hcv
    simp only [check, hft, hmd, if_true, func_advanced_convert_filetype,
      func_advanced_convert_mode]
    rw [hcv]
    simp

/-- Concrete configuration with both conversions enabled. -/
def cfgC2 : Config :=
  { defaultCfg with
    advanced_convert_filetype := true
    advanced_convert_filetype_option := "PNG"
    advanced_convert_modes := true
    advanced_convert_modes_option := "L" }

/-- Witness for C2 at a concrete environment, configuration and image. -/
theorem c2_pipeline_fixed_order_witness :
    (transformChecks defaultEnv cfgC2).map (fun p => p.1) = transformOrder ∧
    modeImage defaultEnv cfgC2 imgW = { imgW with mode := "L" } ∧
    (process defaultEnv cfgC2 imgW).lines =
      [processHeader imgW,
       "[ADVANCED] Converted image to filetype PNG.",
       "[ADVANCED] Converted image to mode L.",
       "[FILE] Successfully processed photo.png."] := by
  have h := c2_pipeline_fixed_order defaultEnv cfgC2 imgW
  obtain ⟨hi, hx, hs⟩ :=
    h.2.1 ({ imgW with mode := "L" }) "photo" ".png" "" rfl
  have h3 := h.2.2 ({ imgW with mode := "L" }) rfl rfl rfl rfl
  refine ⟨h.1, hi.symm, ?_⟩
  rw [h3]
  rfl

/-! ## C3 — resize `>`/`<` gating -/

/-- Concrete image and configuration exhibiting the gate: width exceeds
the threshold, height does not. -/
def imgC3 : Image :=
  { width := 250, height := 100, mode := "RGB", format := "PNG", filename := "in/wide.png" }

def cfgC3 : Config :=
  { defaultCfg with transform_resize := true, transform_resize_entry := "50%>200x200" }

/-- C3 counterexample: for the spec `50%>200x200` on a 250x100 image the
original width exceeds the 200 threshold, so the claim (`resize iff width
OR height exceeds the threshold`) demands a resize, but the code skips:
it resizes only when NEITHER dimension is below the threshold. -/
theorem c3_gate_counterexample :
    (250 > 200 ∨ 100 > 200) ∧
    func_transform_resize defaultEnv cfgC3 imgC3 =
      ⟨.ok imgC3, ["[INFO] Image dimension(s) less than 200x200. Skipping."], 0⟩ := by
  exact ⟨Or.inl (by decide), rfl⟩

/-- Evaluation of the resize transform in the `>` branch with a valid
prefix, nonzero resolved size and a valid numeric suffix. -/
theorem resize_gt_eval (env : Env) (cfg : Config) (img : Image) (p q a b : List Char)
    (hsplit : splitAll '>' cfg.transform_resize_entry.data = [p, q])
    (hp : matchesResizeChars p = true)
    (hz1 : (resolvedSize p img).1 ≠ 0) (hz2 : (resolvedSize p img).2 ≠ 0)
    (hqm : matchesResizeChars q = true)
    (hxq : splitAll 'x' q = [a, b]) (ha : digits1 a = true) (hb : digits1 b = true) :
    func_transform_resize env cfg img =
      if img.width < natOfDigits a || img.height < natOfDigits a then
        ⟨.ok img,
         ["[INFO] Image dimension(s) less than " ++ toString (natOfDigits a) ++ "x" ++
            toString (natOfDigits a) ++ ". Skipping."], 0⟩
      else doFit env cfg (resolvedSize p img) img := by
  simp [func_transform_resize, newSizePart, hsplit, hp, hqm, hxq, ha, hb, hz1, hz2]

/-- Evaluation of the resize transform in the `<` branch. -/
theorem resize_lt_eval (env : Env) (cfg : Config) (img : Image) (p q a b : List Char)
    (hg : (splitAll '>' cfg.transform_resize_entry.data).length ≠ 2)
    (hsplit : splitAll '<' cfg.transform_resize_entry.data = [p, q])
    (hp : matchesResizeChars p = true)
    (hz1 : (resolvedSize p img).1 ≠ 0) (hz2 : (resolvedSize p img).2 ≠ 0)
    (hqm : matchesResizeChars q = true)
    (hxq : splitAll 'x' q = [a, b]) (ha : digits1 a = true) (hb : digits1 b = true) :
    func_transform_resize env cfg img =
      if img.width > natOfDigits a || img.height > natOfDigits a then
        ⟨.ok img,
         ["[INFO] Image dimension(s) greater than " ++ toString (natOfDigits a) ++ "x" ++
            toString (natOfDigits a) ++ ". Skipping."], 0⟩
      else doFit env cfg (resolvedSize p img) img := by
  simp [func_transform_resize, newSizePart, hsplit, hg, hp, hqm, hxq, ha, hb, hz1, hz2]

/-- C3 (amended): for a resize spec `SIZE>NxM` (resp. `SIZE<NxM`) with a
valid `SIZE`, nonzero resolved dimensions and a plain numeric suffix, the
threshold `t` for BOTH axes is the integer parsed from the FIRST suffix
field, and the resize is performed iff the original width AND height are
both at least `t` (for `>`), resp. both at most `t` (for `<`); otherwise
the image is returned unchanged with one `[INFO]` skip notice. -/
theorem c3_gate_amended :
    (∀ (env : Env) (cfg : Config) (img : Image) (p q a b : List Char),
      splitAll '>' cfg.transform_resize_entry.data = [p, q] →
      matchesResizeChars p = true →
      (resolvedSize p img).1 ≠ 0 → (resolvedSize p img).2 ≠ 0 →
      matchesResizeChars q = true →
      splitAll 'x' q = [a, b] → digits1 a = true → digits1 b = true →
      ((img.width < natOfDigits a ∨ img.height < natOfDigits a →
        func_transform_resize env cfg img =
          ⟨.ok img,
           ["[INFO] Image dimension(s) less than " ++ toString (natOfDigits a) ++ "x" ++
              toString (natOfDigits a) ++ ". Skipping."], 0⟩) ∧
       (natOfDigits a ≤ img.width ∧ natOfDigits a ≤ img.height →
        func_transform_resize env cfg img = doFit env cfg (resolvedSize p img) img))) ∧
    (∀ (env : Env) (cfg : Config) (img : Image) (p q a b : List Char),
      (splitAll '>' cfg.transform_resize_entry.data).length ≠ 2 →
      splitAll '<' cfg.transform_resize_entry.data = [p, q] →
      matchesResizeChars p = true →
      (resolvedSize p img).1 ≠ 0 → (resolvedSize p img).2 ≠ 0 →
      matchesResizeChars q = true →
      splitAll 'x' q = [a, b] → digits1 a = true → digits1 b = true →
      ((natOfDigits a < img.width ∨ natOfDigits a < img.height →
        func_transform_resize env cfg img =
          ⟨.ok img,
           ["[INFO] Image dimension(s) greater than " ++ toString (natOfDigits a) ++ "x" ++
              toString (natOfDigits a) ++ ". Skipping."], 0⟩) ∧
       (img.width ≤ natOfDigits a ∧ img.height ≤ natOfDigits a →
        func_transform_resize env cfg img = doFit env cfg (resolvedSize p img) img))) := by
  constructor
  · intro env cfg img p q a b hsplit hp hz1 hz2 hqm hxq ha hb
    have he := resize_gt_eval env cfg img p q a b hsplit hp hz1 hz2 hqm hxq ha hb
    constructor
    · intro hlt
      rw [he, if_pos]
      rcases hlt with h | h <;> simp [h]
    · intro hge
      rw [he, if_neg]
      simp only [Bool.or_eq_true, decide_eq_true_eq, not_or, not_lt]
      exact ⟨hge.1, hge.2⟩
  · intro env cfg img p q a b hg hsplit hp hz1 hz2 hqm hxq ha hb
    have he := resize_lt_eval env cfg img p q a b hg hsplit hp hz1 hz2 hqm hxq ha hb
    constructor
    · intro hlt
      rw [he, if_pos]
      rcases hlt with h | h <;> simp [h]
    · intro hle
      rw [he, if_neg]
      simp only [gt_iff_lt, Bool.or_eq_true, decide_eq_true_eq, not_or, not_lt]
      exact ⟨hle.1, hle.2⟩

/-- Witness for C3 (amended) at concrete inputs: `50%>200x200` resizes a
300x250 image (both dimensions at least 200) and skips a 250x100 image;
`200%<200x200` skips a 100x300 image (height above 200). -/
theorem c3_gate_amended_witness :
    func_transform_resize defaultEnv cfgC3
        { imgC3 with width := 300, height := 250 } =
      doFit defaultEnv cfgC3 (150, 125) { imgC3 with width := 300, height := 250 } ∧
    func_transform_resize defaultEnv cfgC3 imgC3 =
      ⟨.ok imgC3, ["[INFO] Image dimension(s) less than 200x200. Skipping."], 0⟩ ∧
    func_transform_resize defaultEnv
        { defaultCfg with transform_resize := true,
                          transform_resize_entry := "200%<200x200" }
        { imgC3 with width := 100, height := 300 } =
      ⟨.ok { imgC3 with width := 100, height := 300 },
       ["[INFO] Image dimension(s) greater than 200x200. Skipping."], 0⟩ := by
  refine ⟨?_, ?_, ?_⟩
  · have h := (c3_gate_amended.1 defaultEnv cfgC3
      { imgC3 with width := 300, height := 250 } "50%".data "200x200".data
      "200".data "200".data (by decide) (by decide) (by decide) (by decide)
      (by decide) (by decide) (by decide) (by decide)).2 (by decide)
    simpa using h
  · have h := (c3_gate_amended.1 defaultEnv cfgC3 imgC3 "50%".data "200x200".data
      "200".data "200".data (by decide) (by decide) (by decide) (by decide)
      (by decide) (by decide) (by decide) (by decide)).1 (by decide)
    simpa using h
  · have h := (c3_gate_amended.2 defaultEnv
      { defaultCfg with transform_resize := true,
                        transform_resize_entry := "200%<200x200" }
      { imgC3 with width := 100, height := 300 } "200%".data "200x200".data
      "200".data "200".data (by decide) (by decide) (by decide) (by decide)
      (by decide) (by decide) (by decide) (by decide) (by decide)).1 (by decide)
    simpa using h

/-! ## C4 — resize grammar -/

/-- The `SIZE` grammar exactly as the spec's words give it — `N`, `N%`,
`NxN`, `N%xN`, `NxN%` or `N%xN%` for an integer `N` — transcribed for
comparison with the validator the code implements.  The bare-integer
alternative `N` is the point of divergence. -/
def specSizeGrammar (s : String) : Bool :=
  match splitFirst 'x' s.data with
  | some (a, b) => sizeTok a && sizeTok b
  | none => sizeTok s.data

def cfgC4 : Config :=
  { defaultCfg with transform_resize := true, transform_resize_entry := "50" }

/-- C4 counterexample: the bare integer `50` is a `SIZE` of the documented
grammar, yet the validator rejects it: the image comes back unchanged
with exactly one `[WARN]` line, so resizing is never attempted. -/
theorem c4_grammar_counterexample :
    specSizeGrammar "50" = true ∧
    func_transform_resize defaultEnv cfgC4 imgW =
      ⟨.ok imgW, ["[WARN] Incorrect resize syntax. No resizing performed."], 0⟩ ∧
    (func_transform_resize defaultEnv cfgC4 imgW).lines.length = 1 := by
  exact ⟨by decide, rfl, rfl⟩

/-- `splitFirst` finds nothing when the separator does not occur. -/
theorem splitFirst_none (x : Char) : ∀ cs : List Char,
    (∀ c ∈ cs, c ≠ x) → splitFirst x cs = none := by
  intro cs
  induction cs with
  | nil => intro _; rfl
  | cons d rest ih =>
    intro h
    have hd : ¬ d = x := h d (List.mem_cons_self d rest)
    simp only [splitFirst, if_neg hd]
    rw [ih (fun c hc => h c (List.mem_cons_of_mem d hc))]

/-- A nonempty all-digit string neither contains `x` nor ends in `%`, so
it fails `RESIZE_REGEX`. -/
theorem digits_not_matchesResize (cs : List Char) (h : digits1 cs = true) :
    matchesResizeChars cs = false := by
  have hall : ∀ c ∈ cs, c.isDigit = true := by
    have := (Bool.and_eq_true _ _ |>.mp h).2
    exact fun c hc => List.all_eq_true.mp this c hc
  have hx : splitFirst 'x' cs = none := by
    refine splitFirst_none 'x' cs (fun c hc hcx => ?_)
    have := hall c hc
    rw [hcx] at this
    exact absurd this (by decide)
  simp only [matchesResizeChars, hx]
  rcases hl : cs.getLast? with _ | c
  · rfl
  · have hmem : c ∈ cs := by
      obtain ⟨hne, hcc⟩ :=
        List.mem_getLast?_eq_getLast (l := cs) (x := c) (by simp [Option.mem_def, hl])
      rw [hcc]
      exact List.getLast_mem hne
    have hc : c.isDigit = true := hall c hmem
    have hne : c ≠ '%' := by
      intro hcp
      rw [hcp] at hc
      exact absurd hc (by decide)
    split
    next heq => exact absurd (Option.some.injEq .. ▸ heq) (by simpa using hne)
    next => rfl

/-- C4 (amended): the resize validator accepts exactly `RESIZE_REGEX`
(`N%`, `NxN`, `N%xN`, `NxN%` or `N%xN%` — a bare integer `N` is NOT a
valid `SIZE`, second conjunct): any spec whose `SIZE` part fails the
pattern leaves the image unchanged with exactly one `[WARN]` line (first
conjunct), and any suffix-free spec whose `SIZE` part matches the pattern
and resolves to nonzero dimensions reaches the resize call (third
conjunct). -/
theorem c4_grammar_amended :
    (∀ (env : Env) (cfg : Config) (img : Image),
      matchesResizeChars (newSizePart cfg.transform_resize_entry.data) = false →
      func_transform_resize env cfg img =
        ⟨.ok img, ["[WARN] Incorrect resize syntax. No resizing performed."], 0⟩) ∧
    (∀ cs : List Char, digits1 cs = true → matchesResizeChars cs = false) ∧
    (∀ (env : Env) (cfg : Config) (img : Image),
      (splitAll '>' cfg.transform_resize_entry.data).length ≠ 2 →
      (splitAll '<' cfg.transform_resize_entry.data).length ≠ 2 →
      matchesResizeChars (newSizePart cfg.transform_resize_entry.data) = true →
      (resolvedSize (newSizePart cfg.transform_resize_entry.data) img).1 ≠ 0 →
      (resolvedSize (newSizePart cfg.transform_resize_entry.data) img).2 ≠ 0 →
      func_transform_resize env cfg img =
        doFit env cfg (resolvedSize (newSizePart cfg.transform_resize_entry.data) img) img) := by
  refine ⟨?_, digits_not_matchesResize, ?_⟩
  · intro env cfg img h
    simp [func_transform_resize, h]
  · intro env cfg img hnog hnol hm hz1 hz2
    simp [func_transform_resize, hm, hz1, hz2, hnog, hnol]

/-- Witness for C4 (amended) at concrete inputs. -/
theorem c4_grammar_amended_witness :
    func_transform_resize defaultEnv
        { defaultCfg with transform_resize := true, transform_resize_entry := "banana" }
        imgW =
      ⟨.ok imgW, ["[WARN] Incorrect resize syntax. No resizing performed."], 0⟩ ∧
    matchesResizeChars "50".data = false ∧
    func_transform_resize defaultEnv
        { defaultCfg with transform_resize := true, transform_resize_entry := "50%" }
        imgW =
      doFit defaultEnv
        { defaultCfg with transform_resize := true, transform_resize_entry := "50%" }
        (100, 50) imgW := by
  refine ⟨c4_grammar_amended.1 defaultEnv _ imgW (by decide),
    c4_grammar_amended.2.1 "50".data (by decide), ?_⟩
  have h := c4_grammar_amended.2.2 defaultEnv
    { defaultCfg with transform_resize := true, transform_resize_entry := "50%" }
    imgW (by decide) (by decide) (by decide) (by decide) (by decide)
  simpa using h

/-! ## C5 — crop semantics -/

/-- C5: for every crop spec matching the four-field grammar, percentage
`LEFT`/`UPPER` resolve as offsets from the near edge and percentage
`RIGHT`/`LOWER` as insets from the far edge (`resolveFarEdge f size =
size - format_size_1d f size`); the crop is applied iff `left < right`,
`upper < lower`, `right ≠ 0` and `lower ≠ 0`, in which case — for a
library crop meeting its documented contract — the returned image's
dimensions are exactly `(right - left, lower - upper)`; otherwise the
image is unchanged and exactly one `[WARN]` line is appended. -/
theorem c5_crop_semantics (env : Env) (cfg : Config) (img : Image) (a b c d : List Char)
    (henv : ∀ (l u r dd : Int) (i : Image), env.cropOp l u r dd i = .ok (pilCrop l u r dd i))
    (hm : matchesCrop cfg.transform_crop_entry = true)
    (hparts : (splitAll ',' cfg.transform_crop_entry.data).map trimChars = [a, b, c, d]) :
    ((resolveNearEdge a img.width < resolveFarEdge c img.width ∧
      resolveNearEdge b img.height < resolveFarEdge d img.height ∧
      resolveFarEdge c img.width ≠ 0 ∧ resolveFarEdge d img.height ≠ 0) →
      func_transform_crop env cfg img =
        ⟨.ok (pilCrop (resolveNearEdge a img.width) (resolveNearEdge b img.height)
            (resolveFarEdge c img.width) (resolveFarEdge d img.height) img),
         ["[TRANSFORM] Cropped image region (" ++ toString (resolveNearEdge a img.width) ++
            ", " ++ toString (resolveNearEdge b img.height) ++ ", " ++
            toString (resolveFarEdge c img.width) ++ ", " ++
            toString (resolveFarEdge d img.height) ++ ")."], 0⟩ ∧
      ((pilCrop (resolveNearEdge a img.width) (resolveNearEdge b img.height)
          (resolveFarEdge c img.width) (resolveFarEdge d img.height) img).width : Int) =
        resolveFarEdge c img.width - resolveNearEdge a img.width ∧
      ((pilCrop (resolveNearEdge a img.width) (resolveNearEdge b img.height)
          (resolveFarEdge c img.width) (resolveFarEdge d img.height) img).height : Int) =
        resolveFarEdge d img.height - resolveNearEdge b img.height) ∧
    (¬(resolveNearEdge a img.width < resolveFarEdge c img.width ∧
       resolveNearEdge b img.height < resolveFarEdge d img.height ∧
       resolveFarEdge c img.width ≠ 0 ∧ resolveFarEdge d img.height ≠ 0) →
      func_transform_crop env cfg img =
        ⟨.ok img, ["[WARN] Invalid cropping dimensions. No cropping performed."], 0⟩) := by
  have hev : func_transform_crop env cfg img =
      if resolveNearEdge a img.width < resolveFarEdge c img.width ∧
          resolveNearEdge b img.height < resolveFarEdge d img.height ∧
          resolveFarEdge c img.width ≠ 0 ∧ resolveFarEdge d img.height ≠ 0 then
        ⟨.ok (pilCrop (resolveNearEdge a img.width) (resolveNearEdge b img.height)
            (resolveFarEdge c img.width) (resolveFarEdge d img.height) img),
         ["[TRANSFORM] Cropped image region (" ++ toString (resolveNearEdge a img.width) ++
            ", " ++ toString (resolveNearEdge b img.height) ++ ", " ++
            toString (resolveFarEdge c img.width) ++ ", " ++
            toString (resolveFarEdge d img.height) ++ ")."], 0⟩
      else ⟨.ok img, ["[WARN] Invalid cropping dimensions. No cropping performed."], 0⟩ := by
    simp only [func_transform_crop, hm, if_true, hparts, henv]
  constructor
  · intro hcond
    refine ⟨by rw [hev, if_pos hcond], ?_, ?_⟩
    · show ((resolveFarEdge c img.width - resolveNearEdge a img.width).toNat : Int) = _
      exact Int.toNat_of_nonneg (by omega)
    · show ((resolveFarEdge d img.height - resolveNearEdge b img.height).toNat : Int) = _
      exact Int.toNat_of_nonneg (by omega)
  · intro hncond
    rw [hev, if_neg hncond]

/-- Concrete images and configurations for the crop witness. -/
def img100 : Image :=
  { width := 100, height := 100, mode := "RGB", format := "PNG", filename := "in/sq.png" }

def cfgC5 : Config :=
  { defaultCfg with transform_crop := true, transform_crop_entry := "10%,10%,10%,10%" }

def cfgC5bad : Config :=
  { defaultCfg with transform_crop := true, transform_crop_entry := "60,0,40,100" }

/-- Witness for C5: `10%,10%,10%,10%` on a 100x100 image crops the region
`(10, 10, 90, 90)` and yields an 80x80 image; `60,0,40,100` (left not
below right) is a no-op with one `[WARN]`. -/
theorem c5_crop_semantics_witness :
    func_transform_crop defaultEnv cfgC5 img100 =
      ⟨.ok { img100 with width := 80, height := 80 },
       ["[TRANSFORM] Cropped image region (10, 10, 90, 90)."], 0⟩ ∧
    func_transform_crop defaultEnv cfgC5bad img100 =
      ⟨.ok img100, ["[WARN] Invalid cropping dimensions. No cropping performed."], 0⟩ := by
  have h1 := c5_crop_semantics defaultEnv cfgC5 img100
    "10%".data "10%".data "10%".data "10%".data
    (fun _ _ _ _ _ => rfl) (by decide) (by decide)
  have h2 := c5_crop_semantics defaultEnv cfgC5bad img100
    "60".data "0".data "40".data "100".data
    (fun _ _ _ _ _ => rfl) (by decide) (by decide)
  exact ⟨(h1.1 (by decide)).1, h2.2 (by decide)⟩

/-! ## C6 — per-metric statistics isolation -/

/-- A benign batch environment over one decodable file. -/
def benvW : BatchEnv :=
  { fsencodeRes := .ok ()
    mkdirsRes := .ok ()
    inFiles := ["photo.png"]
    outFiles := []
    decode := fun p =>
      .ok { width := 200, height := 100, mode := "RGB", format := "PNG", filename := p }
    saveSpider := fun _ _ => .ok ()
    saveMulti := fun _ _ => .ok ()
    saveDefault := fun _ _ => .ok ()
    writeStats := fun _ _ => .ok ()
    confirm := true }

def bcfgW : BatchCfg := { inputPath := "in", outputPath := "out", overwrite := true }

/-- A library environment whose count metric raises. -/
def envStatFail : Env := { defaultEnv with statCount := fun _ => .error "count unsupported" }

/-- Statistics enabled with the count and mean metrics selected. -/
def cfgC6 : Config :=
  { defaultCfg with advanced_stats := true, advanced_count := true, advanced_mean := true }

/-- C6 counterexample: with statistics enabled and the count metric
failing (mean also selected), the whole file is abandoned: nothing is
saved, no statistics block is produced, the processed counter stays 0 and
the error counter becomes 1 — against the claim that the remaining
metrics, the block and the persistence of the image are unaffected. -/
theorem c6_metric_counterexample :
    (start_processing benvW envStatFail cfgC6 bcfgW).saved = [] ∧
    (start_processing benvW envStatFail cfgC6 bcfgW).statsSaved = [] ∧
    (start_processing benvW envStatFail cfgC6 bcfgW).imgs = 0 ∧
    (start_processing benvW envStatFail cfgC6 bcfgW).errs = 1 ∧
    (start_processing benvW envStatFail cfgC6 bcfgW).lines.getLast? =
      some "[INFO] Finished processing 0 images with 1 error(s)." := by
  exact ⟨rfl, rfl, rfl, rfl, rfl⟩

/-- C6 (amended): a failing selected metric aborts the whole file, not
just its line: the failure escapes `process` (first conjunct), whereupon
the batch loop logs exactly one `[ERROR]`, increments the error counter,
and leaves the processed counter and the saved-file ledgers untouched —
neither the image nor any statistics sidecar is persisted for that file
(second conjunct). -/
theorem c6_metric_amended :
    (∀ (env : Env) (cfg : Config) (img : Image) (e : String),
      cfg.advanced_stats = true →
      computeStats env cfg (modeImage env cfg img) = .error e →
      (process env cfg img).res = .error e) ∧
    (∀ (benv : BatchEnv) (penv : Env) (pcfg : Config) (bcfg : BatchCfg)
        (f : String) (acc : BatchOut) (img : Image) (e : String),
      benv.decode (bcfg.inputPath ++ "/" ++ f) = .ok img →
      (process penv pcfg img).res = .error e →
      processFile benv penv pcfg bcfg f acc =
        { acc with
          lines := acc.lines ++ (process penv pcfg img).lines ++ ["[ERROR] " ++ e],
          errs := acc.errs + (process penv pcfg img).errs + 1 }) := by
  constructor
  · intro env cfg img e hst hcomp
    have hmode : (check cfg.advanced_convert_modes (func_advanced_convert_mode env cfg)
        (runChecks (transformChecks env cfg) img).1).1 = modeImage env cfg img := rfl
    simp only [process, hst, if_true]
    rw [hmode, hcomp]
  · intro benv penv pcfg bcfg f acc img e hdec herr
    simp only [processFile, hdec, herr]

/-- Witness for C6 (amended) at the concrete failing-count batch. -/
theorem c6_metric_amended_witness :
    (process envStatFail cfgC6
        { width := 200, height := 100, mode := "RGB", format := "PNG",
          filename := "in/photo.png" }).res = .error "count unsupported" ∧
    processFile benvW envStatFail cfgC6 bcfgW "photo.png"
        { lines := [], imgs := 0, errs := 0, prompts := 0, saved := [], statsSaved := [] } =
      { lines := (process envStatFail cfgC6
            { width := 200, height := 100, mode := "RGB", format := "PNG",
              filename := "in/photo.png" }).lines ++ ["[ERROR] count unsupported"],
        imgs := 0, errs := 1, prompts := 0, saved := [], statsSaved := [] } := by
  constructor
  · exact c6_metric_amended.1 envStatFail cfgC6
      { width := 200, height := 100, mode := "RGB", format := "PNG",
        filename := "in/photo.png" } "count unsupported" rfl rfl
  · have h := c6_metric_amended.2 benvW envStatFail cfgC6 bcfgW "photo.png"
      { lines := [], imgs := 0, errs := 0, prompts := 0, saved := [], statsSaved := [] }
      { width := 200, height := 100, mode := "RGB", format := "PNG",
        filename := "in/photo.png" } "count unsupported" rfl rfl
    simpa using h

/-! ## C7 — batch counting -/

/-- Does decoding this directory entry succeed? -/
def decodeOkB (benv : BatchEnv) (bcfg : BatchCfg) (f : String) : Bool :=
  match benv.decode (bcfg.inputPath ++ "/" ++ f) with
  | .ok _ => true
  | .error _ => false

/-- Does the whole per-file chain (decode, pipeline with no caught
operation error, save, sidecar) succeed for this entry? -/
def chainOkB (benv : BatchEnv) (penv : Env) (pcfg : Config) (bcfg : BatchCfg)
    (f : String) : Bool :=
  match benv.decode (bcfg.inputPath ++ "/" ++ f) with
  | .error _ => false
  | .ok img =>
    match (process penv pcfg img).res with
    | .error _ => false
    | .ok (img2, img_name, img_extension, img_stats) =>
      (process penv pcfg img).errs == 0 &&
      (match saveStep benv img2 img_extension
          (bcfg.outputPath ++ "/" ++ img_name ++ img_extension) with
       | .error _ => false
       | .ok _ =>
         if img_stats ≠ "" then
           match benv.writeStats (bcfg.outputPath ++ "/" ++ img_name ++ ".txt") img_stats with
           | .error _ => false
           | .ok _ => true
         else true)

/-- A decode failure contributes one `[ERROR]` line and one error count. -/
theorem processFile_decodeFail (benv : BatchEnv) (penv : Env) (pcfg : Config)
    (bcfg : BatchCfg) (f : String) (acc : BatchOut) (e : String)
    (h : benv.decode (bcfg.inputPath ++ "/" ++ f) = .error e) :
    processFile benv penv pcfg bcfg f acc =
      { acc with lines := acc.lines ++ ["[ERROR] " ++ e], errs := acc.errs + 1 } := by
  simp only [processFile, h]

/-- A fully successful chain bumps the processed counter and the saved
ledger by one and leaves the error counter and the prompt count alone. -/
theorem processFile_chainOk (benv : BatchEnv) (penv : Env) (pcfg : Config)
    (bcfg : BatchCfg) (f : String) (acc : BatchOut)
    (h : chainOkB benv penv pcfg bcfg f = true) :
    (processFile benv penv pcfg bcfg f acc).imgs = acc.imgs + 1 ∧
    (processFile benv penv pcfg bcfg f acc).errs = acc.errs ∧
    (processFile benv penv pcfg bcfg f acc).saved.length = acc.saved.length + 1 ∧
    (processFile benv penv pcfg bcfg f acc).prompts = acc.prompts := by
  unfold chainOkB at h
  cases hd : benv.decode (bcfg.inputPath ++ "/" ++ f) with
  | error e => rw [hd] at h; simp at h
  | ok img =>
    rw [hd] at h
    simp only at h
    cases hp : (process penv pcfg img).res with
    | error e => rw [hp] at h; simp at h
    | ok t =>
      obtain ⟨img2, img_name, img_extension, img_stats⟩ := t
      rw [hp] at h
      simp only [Bool.and_eq_true, beq_iff_eq] at h
      obtain ⟨herrs, hrest⟩ := h
      cases hs : saveStep benv img2 img_extension
          (bcfg.outputPath ++ "/" ++ img_name ++ img_extension) with
      | error e => rw [hs] at hrest; simp at hrest
      | ok u =>
        rw [hs] at hrest
        simp only at hrest
        by_cases hne : img_stats = ""
        · simp [processFile, hd, hp, hs, hne, herrs]
        · rw [if_pos hne] at hrest
          cases hw : benv.writeStats (bcfg.outputPath ++ "/" ++ img_name ++ ".txt")
              img_stats with
          | error e => rw [hw] at hrest; simp at hrest
          | ok v => simp [processFile, hd, hp, hs, hw, hne, herrs]

/-- The batch loop never raises the confirmation dialog. -/
theorem processFile_prompts (benv : BatchEnv) (penv : Env) (pcfg : Config)
    (bcfg : BatchCfg) (f : String) (acc : BatchOut) :
    (processFile benv penv pcfg bcfg f acc).prompts = acc.prompts := by
  cases hd : benv.decode (bcfg.inputPath ++ "/" ++ f) with
  | error e => simp [processFile, hd]
  | ok img =>
    cases hp : (process penv pcfg img).res with
    | error e => simp [processFile, hd, hp]
    | ok t =>
      obtain ⟨img2, img_name, img_extension, img_stats⟩ := t
      cases hs : saveStep benv img2 img_extension
          (bcfg.outputPath ++ "/" ++ img_name ++ img_extension) with
      | error e => simp [processFile, hd, hp, hs]
      | ok u =>
        by_cases hne : img_stats = ""
        · simp [processFile, hd, hp, hs, hne]
        · cases hw : benv.writeStats (bcfg.outputPath ++ "/" ++ img_name ++ ".txt")
              img_stats with
          | error e => simp [processFile, hd, hp, hs, hne, hw]
          | ok v => simp [processFile, hd, hp, hs, hne, hw]

/-- The loop preserves the prompt count over any file list. -/
theorem runFiles_prompts (benv : BatchEnv) (penv : Env) (pcfg : Config) (bcfg : BatchCfg) :
    ∀ (files : List String) (acc : BatchOut),
      (runFiles benv penv pcfg bcfg files acc).prompts = acc.prompts := by
  intro files
  induction files with
  | nil => intro acc; rfl
  | cons f rest ih =>
    intro acc
    simp only [runFiles]
    rw [ih, processFile_prompts]

/-- Counting lemma for the loop: on a list where every decodable entry has
a fully successful chain, the processed counter and saved ledger grow by
the number of decodable entries and the error counter by the number of
undecodable ones. -/
theorem runFiles_counts (benv : BatchEnv) (penv : Env) (pcfg : Config) (bcfg : BatchCfg) :
    ∀ (files : List String) (acc : BatchOut),
      (∀ f ∈ files, decodeOkB benv bcfg f = true → chainOkB benv penv pcfg bcfg f = true) →
      (runFiles benv penv pcfg bcfg files acc).imgs =
          acc.imgs + files.countP (fun f => decodeOkB benv bcfg f) ∧
      (runFiles benv penv pcfg bcfg files acc).errs =
          acc.errs + files.countP (fun f => !decodeOkB benv bcfg f) ∧
      (runFiles benv penv pcfg bcfg files acc).saved.length =
          acc.saved.length + files.countP (fun f => decodeOkB benv bcfg f) := by
  intro files
  induction files with
  | nil => intro acc _; simp [runFiles]
  | cons f rest ih =>
    intro acc h
    simp only [runFiles]
    by_cases hd : decodeOkB benv bcfg f = true
    · have hch := h f (List.mem_cons_self f rest) hd
      obtain ⟨h1, h2, h3, _⟩ := processFile_chainOk benv penv pcfg bcfg f acc hch
      obtain ⟨i1, i2, i3⟩ := ih (processFile benv penv pcfg bcfg f acc)
        (fun g hg => h g (List.mem_cons_of_mem f hg))
      rw [i1, i2, i3, h1, h2, h3]
      simp [List.countP_cons, hd]
      omega
    · have hdf : decodeOkB benv bcfg f = false := by
        cases hb : decodeOkB benv bcfg f
        · rfl
        · exact absurd hb hd
      obtain ⟨e, he⟩ : ∃ e, benv.decode (bcfg.inputPath ++ "/" ++ f) = .error e := by
        unfold decodeOkB at hdf
        cases hx : benv.decode (bcfg.inputPath ++ "/" ++ f) with
        | error e => exact ⟨e, rfl⟩
        | ok i => rw [hx] at hdf; simp at hdf
      rw [processFile_decodeFail benv penv pcfg bcfg f acc e he]
      obtain ⟨i1, i2, i3⟩ := ih
        { acc with lines := acc.lines ++ ["[ERROR] " ++ e], errs := acc.errs + 1 }
        (fun g hg => h g (List.mem_cons_of_mem f hg))
      rw [i1, i2, i3]
      simp [List.countP_cons, hdf]
      omega

/-- Every entry is counted exactly once: decodable plus undecodable equals
the directory size. -/
theorem countP_decode_split (p : String → Bool) (l : List String) :
    l.countP p + l.countP (fun f => !p f) = l.length := by
  induction l with
  | nil => simp
  | cons a t ih =>
    by_cases h : p a = true <;>
      simp [List.countP_cons, h, ← ih] <;> omega

/-- The last element of a list with a final singleton appended. -/
theorem getLast?_append_singleton {α : Type} (l : List α) (a : α) :
    (l ++ [a]).getLast? = some a := by
  rw [List.getLast?_append_of_ne_nil l (by simp)]
  rfl

/-- C7: over a batch whose N directory entries contain exactly K
undecodable files and whose decodable files all process, save and count
cleanly, the run produces exactly N-K processed results and saved files,
the error counter equals K, and the final `[INFO]` summary line reports
exactly these two counts. -/
theorem c7_batch_counts (benv : BatchEnv) (penv : Env) (pcfg : Config) (bcfg : BatchCfg)
    (hfs : benv.fsencodeRes = .ok ()) (hmk : benv.mkdirsRes = .ok ())
    (hover : bcfg.overwrite = true)
    (hchain : ∀ f ∈ benv.inFiles, decodeOkB benv bcfg f = true →
      chainOkB benv penv pcfg bcfg f = true) :
    (start_processing benv penv pcfg bcfg).imgs =
        benv.inFiles.length - benv.inFiles.countP (fun f => !decodeOkB benv bcfg f) ∧
    (start_processing benv penv pcfg bcfg).errs =
        benv.inFiles.countP (fun f => !decodeOkB benv bcfg f) ∧
    (start_processing benv penv pcfg bcfg).saved.length =
        benv.inFiles.length - benv.inFiles.countP (fun f => !decodeOkB benv bcfg f) ∧
    (start_processing benv penv pcfg bcfg).lines.getLast? =
      some ("[INFO] Finished processing " ++
        toString (benv.inFiles.length -
          benv.inFiles.countP (fun f => !decodeOkB benv bcfg f)) ++
        " images with " ++
        toString (benv.inFiles.countP (fun f => !decodeOkB benv bcfg f)) ++
        " error(s).") := by
  have hK := countP_decode_split (fun f => decodeOkB benv bcfg f) benv.inFiles
  have hP : benv.inFiles.countP (fun f => decodeOkB benv bcfg f) =
      benv.inFiles.length - benv.inFiles.countP (fun f => !decodeOkB benv bcfg f) := by
    omega
  obtain ⟨c1, c2, c3⟩ := runFiles_counts benv penv pcfg bcfg benv.inFiles
    { lines := ["[INFO] Started processing job."], imgs := 0, errs := 0, prompts := 0,
      saved := [], statsSaved := [] } hchain
  refine ⟨?_, ?_, ?_, ?_⟩ <;>
    simp only [start_processing, hfs, hmk, hover, Bool.not_true, Bool.and_false,
      Bool.false_eq_true, if_false, finishBatch]
  · rw [c1, hP]
    simp
  · rw [c2]
    simp
  · rw [c3, hP]
    simp
  · rw [getLast?_append_singleton, c1, c2, hP]
    simp

/-- A batch over three entries of which exactly one fails to decode. -/
def benvC7 : BatchEnv :=
  { benvW with
    inFiles := ["a.png", "bad.bin", "b.png"]
    decode := fun p =>
      if p = "in/bad.bin" then .error "cannot identify image file"
      else .ok { width := 10, height := 10, mode := "RGB", format := "PNG", filename := p } }

/-- Witness for C7: N = 3, K = 1 gives 2 processed, 1 error, and the
summary line reports both. -/
theorem c7_batch_counts_witness :
    (start_processing benvC7 defaultEnv defaultCfg bcfgW).imgs = 2 ∧
    (start_processing benvC7 defaultEnv defaultCfg bcfgW).errs = 1 ∧
    (start_processing benvC7 defaultEnv defaultCfg bcfgW).saved.length = 2 ∧
    (start_processing benvC7 defaultEnv defaultCfg bcfgW).lines.getLast? =
      some "[INFO] Finished processing 2 images with 1 error(s)." := by
  have h := c7_batch_counts benvC7 defaultEnv defaultCfg bcfgW rfl rfl rfl (by decide)
  exact ⟨h.1.trans (by decide), h.2.1.trans (by decide), h.2.2.1.trans (by decide),
    h.2.2.2.trans (by decide)⟩

/-! ## C8 — overwrite collision confirmation -/

/-- C8: with the overwrite flag clear, the confirmation dialog is raised
exactly once per batch invocation iff the intersection of the normalised
(case-insensitive, whitespace-trimmed, extension-stripped) base-filename
sets of the two directories is non-empty — never once per colliding file
(prompt count is always at most 1) — and a declined dialog aborts the
batch with one `[INFO]` line and zero processed images and saved files. -/
theorem c8_overwrite_once (benv : BatchEnv) (penv : Env) (pcfg : Config) (bcfg : BatchCfg)
    (hfs : benv.fsencodeRes = .ok ()) (hmk : benv.mkdirsRes = .ok ()) :
    (start_processing benv penv pcfg bcfg).prompts =
      (if (benv.inFiles.map normalizeName).any
            (fun n => (benv.outFiles.map normalizeName).contains n) && !bcfg.overwrite
       then 1 else 0) ∧
    (start_processing benv penv pcfg bcfg).prompts ≤ 1 ∧
    ((benv.inFiles.map normalizeName).any
        (fun n => (benv.outFiles.map normalizeName).contains n) = true →
      bcfg.overwrite = false → benv.confirm = false →
      start_processing benv penv pcfg bcfg =
        { lines := ["[INFO] Started processing job.", "[INFO] Aborted processing job."],
          imgs := 0, errs := 0, prompts := 1, saved := [], statsSaved := [] }) := by
  have h1 : (start_processing benv penv pcfg bcfg).prompts =
      (if (benv.inFiles.map normalizeName).any
            (fun n => (benv.outFiles.map normalizeName).contains n) && !bcfg.overwrite
       then 1 else 0) := by
    simp only [start_processing, hfs, hmk]
    by_cases hb : ((benv.inFiles.map normalizeName).any
        (fun n => (benv.outFiles.map normalizeName).contains n) && !bcfg.overwrite) = true
    · rw [if_pos hb, if_pos hb]
      by_cases hcf : benv.confirm = true
      · simp [hcf, finishBatch, runFiles_prompts]
      · simp [hcf]
    · rw [if_neg hb, if_neg hb]
      simp [finishBatch, runFiles_prompts]
  refine ⟨h1, ?_, ?_⟩
  · rw [h1]
    split <;> simp
  · intro hcol hov hconf
    simp only [start_processing, hfs, hmk]
    rw [if_pos (by rw [hcol, hov]; rfl), if_pos (by rw [hconf]; rfl)]
    rfl

/-- A destination directory colliding with two of the three input entries
(case-insensitively, extension-stripped). -/
def benvC8 : BatchEnv :=
  { benvW with
    inFiles := ["A.png", "b.jpg", "c.gif"]
    outFiles := ["a.gif", "B.png"]
    confirm := false }

def bcfgC8 : BatchCfg := { inputPath := "in", outputPath := "out", overwrite := false }

/-- Witness for C8: two colliding names still raise the dialog exactly
once, and the declined dialog aborts with zero images processed. -/
theorem c8_overwrite_once_witness :
    (start_processing benvC8 defaultEnv defaultCfg bcfgC8).prompts = 1 ∧
    (start_processing benvC8 defaultEnv defaultCfg bcfgC8).prompts ≤ 1 ∧
    start_processing benvC8 defaultEnv defaultCfg bcfgC8 =
      { lines := ["[INFO] Started processing job.", "[INFO] Aborted processing job."],
        imgs := 0, errs := 0, prompts := 1, saved := [], statsSaved := [] } := by
  have h := c8_overwrite_once benvC8 defaultEnv defaultCfg bcfgC8 rfl rfl
  exact ⟨h.1.trans (by decide), h.2.1, h.2.2 (by decide) rfl rfl⟩

/-! ## C10 — processed and error counters from one file -/

/-- A library environment whose convolution filters all raise. -/
def envBlurFail : Env := { defaultEnv with filterOp := fun _ _ => .error "blur unsupported" }

/-- Blur enabled. -/
def cfgC10 : Config := { defaultCfg with transform_blur := true }

/-- C10: a single source file can increment BOTH counters: with blur
enabled and its library call failing, the isolation wrapper counts one
error, the pipeline continues, the file is still saved and counted as
processed — so the summary reports 1 processed plus 1 error over a
1-entry directory, and processed + errors exceeds the entry count. -/
theorem c10_processed_plus_errors :
    (start_processing benvW envBlurFail cfgC10 bcfgW).imgs = 1 ∧
    (start_processing benvW envBlurFail cfgC10 bcfgW).errs = 1 ∧
    benvW.inFiles.length = 1 ∧
    (start_processing benvW envBlurFail cfgC10 bcfgW).imgs +
      (start_processing benvW envBlurFail cfgC10 bcfgW).errs > benvW.inFiles.length ∧
    (start_processing benvW envBlurFail cfgC10 bcfgW).saved = ["out/photo.png"] ∧
    (start_processing benvW envBlurFail cfgC10 bcfgW).lines.getLast? =
      some "[INFO] Finished processing 1 images with 1 error(s)." := by
  exact ⟨rfl, rfl, rfl, by decide, rfl, rfl⟩
